import Mathlib

/-!
Shallow embedding of the interactive control core of the RustRayMarcher
repository (src/camera.rs, src/input.rs, src/uniforms.rs, src/app.rs,
src/main.rs).

Modelling conventions:
* `f32`/`f64` values are modelled exactly over `ℚ` (decimal literals of the
  source become the corresponding rationals).
* The external mathematical routines the source calls — `cos`, `sin`,
  degree→radian conversion, cgmath's `normalize`, `look_at_rh` and
  `perspective` — are uninterpreted function parameters collected in
  `MathOps`; every theorem quantifies over them.
* `u32`/`i32` values are modelled as `ℕ`/`ℤ` with explicit wrapping
  (`% 2^32`) and saturating float→int casts where the source performs them
  (Rust `as` casts saturate for float→int and wrap for int→int; unsigned
  overflow of `+` wraps in release builds).
* The fallible `window.set_cursor_grab` call is modelled by a boolean
  parameter `grab_ok` giving the outcome of a grab request; the
  `window.set_cursor_visible` call made by an event is recorded in the
  result (`Option Bool`).  `println!` side effects are not modelled (they
  mutate no state).
-/

namespace RayMarcher

/-- 3-component `f32` vector (cgmath `Vector3<f32>`), modelled over `ℚ`. -/
structure Vec3 where
  x : ℚ
  y : ℚ
  z : ℚ
deriving DecidableEq

instance : Add Vec3 := ⟨fun a b => ⟨a.x + b.x, a.y + b.y, a.z + b.z⟩⟩

instance : Sub Vec3 := ⟨fun a b => ⟨a.x - b.x, a.y - b.y, a.z - b.z⟩⟩

instance : Neg Vec3 := ⟨fun a => ⟨-a.x, -a.y, -a.z⟩⟩

instance : SMul ℚ Vec3 := ⟨fun s a => ⟨s * a.x, s * a.y, s * a.z⟩⟩

/-- Cross product of two vectors (cgmath `Vector3::cross`). -/
def Vec3.cross (a b : Vec3) : Vec3 :=
  ⟨a.y * b.z - a.z * b.y, a.z * b.x - a.x * b.z, a.x * b.y - a.y * b.x⟩

/-- 4×4 `f32` matrix (cgmath `Matrix4<f32>`). -/
abbrev Mat4 := Fin 4 → Fin 4 → ℚ

/-- The identity matrix, the value of `Matrix4::from_scale(1.0)`. -/
def Mat4.one : Mat4 := fun i j => if i = j then 1 else 0

/-- The external mathematical routines used by the source, left
uninterpreted: `rad` is `f32::to_radians`, `rcos`/`rsin` are `f32::cos` /
`f32::sin`, `nf` is cgmath's `normalize`, and `look_at_rh` / `perspective`
are cgmath's matrix builders. -/
structure MathOps where
  rad : ℚ → ℚ
  rcos : ℚ → ℚ
  rsin : ℚ → ℚ
  nf : Vec3 → Vec3
  look_at_rh : Vec3 → Vec3 → Vec3 → Mat4
  perspective : ℚ → ℚ → ℚ → ℚ → Mat4

/-- A concrete instantiation of the uninterpreted routines, used to
evaluate the model on concrete inputs. -/
def MathOps.triv : MathOps :=
  { rad := id, rcos := id, rsin := id, nf := id,
    look_at_rh := fun _ _ _ => Mat4.one,
    perspective := fun _ _ _ _ => Mat4.one }

/-- `x.clamp(lo, hi)` of Rust `f32` (for `lo ≤ hi`). -/
def rclamp (x lo hi : ℚ) : ℚ := min (max x lo) hi

/-- Rust float→int truncation toward zero (the mathematical value of an
`as` cast before saturation). -/
def rtrunc (q : ℚ) : ℤ := if q < 0 then -⌊-q⌋ else ⌊q⌋

/-- Rust `f32 as i32`: truncate toward zero, saturating at the `i32`
bounds. -/
def f32_to_i32 (q : ℚ) : ℤ := max (min (rtrunc q) 2147483647) (-2147483648)

/-- Rust `f32 as u32`: truncate toward zero, saturating at the `u32`
bounds. -/
def f32_to_u32 (q : ℚ) : ℕ := (max (min (rtrunc q) 4294967295) 0).toNat

/-- Rust `u32 as i32`: reinterpret the 32-bit pattern. -/
def u32_to_i32 (n : ℕ) : ℤ := ((n : ℤ) + 2147483648) % 4294967296 - 2147483648

/-- Rust `i32 as u32`: reinterpret the 32-bit pattern. -/
def i32_to_u32 (z : ℤ) : ℕ := (z % 4294967296).toNat

/-- Wrap an unbounded integer into `i32` (release-mode overflow
behaviour of `i32` arithmetic). -/
def i32_wrap (z : ℤ) : ℤ := (z + 2147483648) % 4294967296 - 2147483648

/-- The subset of `winit::keyboard::KeyCode` the source binds. -/
inductive KeyCode where
  | tab | keyF | keyW | keyA | keyS | keyD | keyC | keyR
  | keyQ | keyE | keyZ | keyX | space | controlLeft | shiftLeft
  | arrowUp | arrowDown | arrowLeft | arrowRight
  | digit0 | digit1 | digit2 | digit3 | digit4 | digit5 | digit6
  | escape
deriving DecidableEq

/-- `winit::event::ElementState`. -/
inductive ElementState where
  | pressed
  | released
deriving DecidableEq

/-- `winit::event::MouseButton` (with a catch-all for other buttons). -/
inductive MouseButton where
  | left
  | right
  | middle
  | otherButton
deriving DecidableEq

/-- `winit::event::MouseScrollDelta`. -/
inductive MouseScrollDelta where
  | lineDelta (x y : ℚ)
  | pixelDelta (x y : ℚ)
deriving DecidableEq

/-- The subset of `winit::event::WindowEvent` the source matches on
(with a catch-all for the remaining variants). -/
inductive WindowEvent where
  | keyboardInput (state : ElementState) (keycode : KeyCode)
  | mouseInput (state : ElementState) (button : MouseButton)
  | mouseWheel (delta : MouseScrollDelta)
  | cursorMoved (position : ℚ × ℚ)
  | closeRequested
  | resized (width height : ℕ)
  | redrawRequested
  | otherEvent
deriving DecidableEq

/-- `Camera` (src/camera.rs lines 3-15). -/
structure Camera where
  position : Vec3
  target : Vec3
  up : Vec3
  aspect : ℚ
  fovy : ℚ
  znear : ℚ
  zfar : ℚ
  speed : ℚ
  sensitivity : ℚ
  yaw : ℚ
  pitch : ℚ
deriving DecidableEq

/-- `Camera::new` (src/camera.rs lines 18-32). -/
def Camera.new (aspect : ℚ) : Camera :=
  { position := ⟨0, 0, -3⟩
    target := ⟨0, 0, 0⟩
    up := ⟨0, 1, 0⟩
    aspect := aspect
    fovy := 45
    znear := 1/10
    zfar := 100
    speed := 2
    sensitivity := 1/500
    yaw := 90
    pitch := 0 }

/-- `Camera::build_view_projection_matrix` (src/camera.rs lines 34-42). -/
def Camera.build_view_projection_matrix (ops : MathOps) (c : Camera) :
    Mat4 × Mat4 :=
  (ops.look_at_rh c.position c.target c.up,
   ops.perspective c.fovy c.aspect c.znear c.zfar)

/-- `Camera::update_target` (src/camera.rs lines 44-52). -/
def Camera.update_target (ops : MathOps) (c : Camera) : Camera :=
  let front := ops.nf
    ⟨ops.rcos (ops.rad c.yaw) * ops.rcos (ops.rad c.pitch),
     ops.rsin (ops.rad c.pitch),
     ops.rsin (ops.rad c.yaw) * ops.rcos (ops.rad c.pitch)⟩
  { c with target := c.position + front }

/-- `Camera::reset` (src/camera.rs lines 54-59). -/
def Camera.reset (c : Camera) : Camera :=
  { c with position := ⟨0, 0, -3⟩, yaw := 90, pitch := 0, speed := 2 }

/-- `Uniforms` (src/uniforms.rs lines 6-15). -/
structure Uniforms where
  view_matrix : Mat4
  projection_matrix : Mat4
  time : ℚ
  fractal_power : ℚ
  fractal_iterations : ℕ
  fractal_type : ℕ
  camera_pos : Vec3
  padding2 : ℚ

/-- `Uniforms::new` (src/uniforms.rs lines 18-29). -/
def Uniforms.new : Uniforms :=
  { view_matrix := Mat4.one
    projection_matrix := Mat4.one
    time := 0
    fractal_power := 8
    fractal_iterations := 64
    fractal_type := 0
    camera_pos := ⟨0, 0, -3⟩
    padding2 := 0 }

/-- `InputHandler` (src/input.rs lines 12-19). -/
structure InputHandler where
  keys_pressed : Finset KeyCode
  left_mouse_pressed : Bool
  right_mouse_pressed : Bool
  middle_mouse_pressed : Bool
  last_mouse_pos : ℚ × ℚ
  mouse_captured : Bool
deriving DecidableEq

/-- `InputHandler::new` (src/input.rs lines 22-31). -/
def InputHandler.new : InputHandler :=
  { keys_pressed := ∅
    left_mouse_pressed := false
    right_mouse_pressed := false
    middle_mouse_pressed := false
    last_mouse_pos := (0, 0)
    mouse_captured := false }

/-- Result of `InputHandler::handle_event`: the updated handler, the
returned `bool`, and the argument of the `set_cursor_visible` call the
event made (if any). -/
structure HandleResult where
  handler : InputHandler
  handled : Bool
  cursor_visible : Option Bool
deriving DecidableEq

/-- `InputHandler::handle_event` (src/input.rs lines 33-132).  `grab_ok`
is the outcome of a `window.set_cursor_grab` request, should one be made. -/
def InputHandler.handle_event (grab_ok : Bool) (i : InputHandler)
    (e : WindowEvent) : HandleResult :=
  match e with
  | .keyboardInput .pressed keycode =>
      let i := { i with keys_pressed := insert keycode i.keys_pressed }
      if keycode = .tab then
        let cap := !i.mouse_captured
        let cap := if grab_ok then cap else false
        ⟨{ i with mouse_captured := cap }, true, some (!cap)⟩
      else
        ⟨i, true, none⟩
  | .keyboardInput .released keycode =>
      ⟨{ i with keys_pressed := i.keys_pressed.erase keycode }, true, none⟩
  | .mouseInput state button =>
      let pressed := state = ElementState.pressed
      match button with
      | .left =>
          let i := { i with left_mouse_pressed := pressed }
          if pressed ∧ i.mouse_captured = false then
            let cap := if grab_ok then true else false
            ⟨{ i with mouse_captured := cap }, true, some (!cap)⟩
          else
            ⟨i, true, none⟩
      | .right => ⟨{ i with right_mouse_pressed := pressed }, true, none⟩
      | .middle => ⟨{ i with middle_mouse_pressed := pressed }, true, none⟩
      | .otherButton => ⟨i, true, none⟩
  | .mouseWheel _ => ⟨i, true, none⟩
  | .cursorMoved position => ⟨{ i with last_mouse_pos := position }, true, none⟩
  | _ => ⟨i, false, none⟩

/-- `InputHandler::get_mouse_delta` (src/input.rs lines 134-143). -/
def InputHandler.get_mouse_delta (i : InputHandler) (position : ℚ × ℚ) :
    ℚ × ℚ :=
  if i.mouse_captured then
    (position.1 - i.last_mouse_pos.1, position.2 - i.last_mouse_pos.2)
  else
    (0, 0)

/-- `InputHandler::update_camera` (src/input.rs lines 145-204). -/
def InputHandler.update_camera (ops : MathOps) (i : InputHandler)
    (c : Camera) (dt : ℚ) : Camera :=
  let base_speed := c.speed * dt
  let movement_speed :=
    if KeyCode.controlLeft ∈ i.keys_pressed then base_speed * (1/10)
    else if KeyCode.shiftLeft ∈ i.keys_pressed ∧
            KeyCode.space ∉ i.keys_pressed then base_speed * 3
    else base_speed
  let forward := ops.nf (c.target - c.position)
  let right := ops.nf (Vec3.cross forward c.up)
  let c := if KeyCode.keyW ∈ i.keys_pressed then
    { c with position := c.position + movement_speed • forward } else c
  let c := if KeyCode.keyS ∈ i.keys_pressed then
    { c with position := c.position - movement_speed • forward } else c
  let c := if KeyCode.keyA ∈ i.keys_pressed then
    { c with position := c.position - movement_speed • right } else c
  let c := if KeyCode.keyD ∈ i.keys_pressed then
    { c with position := c.position + movement_speed • right } else c
  let c := if KeyCode.space ∈ i.keys_pressed then
    let vertical_speed :=
      if KeyCode.shiftLeft ∈ i.keys_pressed then base_speed * (1/2)
      else movement_speed
    { c with position := c.position + vertical_speed • c.up } else c
  let c := if KeyCode.keyC ∈ i.keys_pressed then
    { c with position := c.position - movement_speed • c.up } else c
  let c := if KeyCode.arrowUp ∈ i.keys_pressed then
    { c with position := c.position + movement_speed • forward } else c
  let c := if KeyCode.arrowDown ∈ i.keys_pressed then
    { c with position := c.position - movement_speed • forward } else c
  let c := if KeyCode.arrowLeft ∈ i.keys_pressed then
    { c with position := c.position - movement_speed • right } else c
  let c := if KeyCode.arrowRight ∈ i.keys_pressed then
    { c with position := c.position + movement_speed • right } else c
  let c := if KeyCode.keyR ∈ i.keys_pressed then c.reset else c
  c

/-- `InputHandler::update_uniforms` (src/input.rs lines 206-243). -/
def InputHandler.update_uniforms (i : InputHandler) (u : Uniforms)
    (dt : ℚ) : Uniforms :=
  let u := if KeyCode.keyQ ∈ i.keys_pressed then
    let p := max (u.fractal_power - dt * 2) 1
    { u with fractal_power := p } else u
  let u := if KeyCode.keyE ∈ i.keys_pressed then
    let p := min (u.fractal_power + dt * 2) 20
    { u with fractal_power := p } else u
  let u := if KeyCode.keyZ ∈ i.keys_pressed then
    let n := i32_to_u32 (max (i32_wrap
      (u32_to_i32 u.fractal_iterations - f32_to_i32 (dt * 20))) 8)
    { u with fractal_iterations := n } else u
  let u := if KeyCode.keyX ∈ i.keys_pressed then
    let n := min ((u.fractal_iterations + f32_to_u32 (dt * 20)) % 4294967296) 256
    { u with fractal_iterations := n } else u
  let u := if KeyCode.digit1 ∈ i.keys_pressed then
    { u with fractal_type := 0 } else u
  let u := if KeyCode.digit2 ∈ i.keys_pressed then
    { u with fractal_type := 1 } else u
  let u := if KeyCode.digit3 ∈ i.keys_pressed then
    { u with fractal_type := 2 } else u
  let u := if KeyCode.digit4 ∈ i.keys_pressed then
    { u with fractal_type := 3 } else u
  let u := if KeyCode.digit5 ∈ i.keys_pressed then
    { u with fractal_type := 4 } else u
  let u := if KeyCode.digit6 ∈ i.keys_pressed then
    { u with fractal_type := 5 } else u
  let u := if KeyCode.digit0 ∈ i.keys_pressed then
    { u with fractal_type := 99 } else u
  u

/-- `InputHandler::update_mouse_look` (src/input.rs lines 245-263). -/
def InputHandler.update_mouse_look (ops : MathOps) (i : InputHandler)
    (c : Camera) (position : ℚ × ℚ) : InputHandler × Camera :=
  if i.mouse_captured then
    let d := i.get_mouse_delta position
    let sensitivity :=
      if i.right_mouse_pressed then c.sensitivity * (3/10)
      else c.sensitivity
    let c := { c with yaw := c.yaw + d.1 * sensitivity,
                      pitch := c.pitch - d.2 * sensitivity }
    let c := { c with pitch := rclamp c.pitch (-89) 89 }
    let c := Camera.update_target ops c
    ({ i with last_mouse_pos := position }, c)
  else
    ({ i with last_mouse_pos := position }, c)

/-- The wheel-delta normalisation shared by the two `match delta` blocks
(src/input.rs lines 111-114 and 266-269). -/
def scroll_amount (delta : MouseScrollDelta) : ℚ :=
  match delta with
  | .lineDelta _ y => y * (1/2)
  | .pixelDelta _ y => y * (1/100)

/-- `InputHandler::handle_mouse_scroll` (src/input.rs lines 265-273). -/
def InputHandler.handle_mouse_scroll (_i : InputHandler) (c : Camera)
    (delta : MouseScrollDelta) : Camera :=
  { c with speed := rclamp (c.speed + scroll_amount delta * (1/2)) (1/10) 20 }

/-- Fold of `update_mouse_look` over a sequence of cursor positions. -/
def applyMouseMoves (ops : MathOps) (p : InputHandler × Camera)
    (evs : List (ℚ × ℚ)) : InputHandler × Camera :=
  evs.foldl (fun p pos => InputHandler.update_mouse_look ops p.1 p.2 pos) p

/-- The FPS-window step of `RayMarchingApp::update` (src/app.rs lines
83-90), acting on `(frame_count, fps_update_timer, current_fps)`. -/
def fps_tick (dt : ℚ) (t : ℕ × ℚ × ℚ) : ℕ × ℚ × ℚ :=
  let frame_count := t.1 + 1
  let timer := t.2.1 + dt
  if 1 ≤ timer then (0, 0, (frame_count : ℚ) / timer)
  else (frame_count, timer, t.2.2)

/-- `RayMarchingApp` (src/app.rs lines 14-24); the GPU-side renderer is
reduced to its window size, the only renderer state this core reads. -/
structure RayMarchingApp where
  uniforms : Uniforms
  camera : Camera
  input_handler : InputHandler
  frame_count : ℕ
  fps_update_timer : ℚ
  current_fps : ℚ
  size : ℕ × ℕ

/-- `RayMarchingApp::resize` (src/app.rs lines 54-59). -/
def RayMarchingApp.resize (a : RayMarchingApp) (width height : ℕ) :
    RayMarchingApp :=
  if 0 < width ∧ 0 < height then
    { a with size := (width, height),
             camera := { a.camera with
               aspect := (width : ℚ) / (height : ℚ) } }
  else a

/-- `RayMarchingApp::input` (src/app.rs lines 61-75). -/
def RayMarchingApp.input (ops : MathOps) (grab_ok : Bool)
    (a : RayMarchingApp) (e : WindowEvent) : RayMarchingApp × Bool :=
  match e with
  | .mouseWheel delta =>
      ({ a with camera :=
          InputHandler.handle_mouse_scroll a.input_handler a.camera delta },
       true)
  | .cursorMoved position =>
      let r := InputHandler.update_mouse_look ops a.input_handler a.camera
        position
      ({ a with input_handler := r.1, camera := r.2 }, true)
  | _ =>
      let r := InputHandler.handle_event grab_ok a.input_handler e
      ({ a with input_handler := r.handler }, r.handled)

/-- `RayMarchingApp::update` (src/app.rs lines 77-108); `dt` is the
elapsed real time measured by the `Instant` calls. -/
def RayMarchingApp.update (ops : MathOps) (dt : ℚ) (a : RayMarchingApp) :
    RayMarchingApp :=
  let t := fps_tick dt (a.frame_count, a.fps_update_timer, a.current_fps)
  let camera := InputHandler.update_camera ops a.input_handler a.camera dt
  let camera := Camera.update_target ops camera
  let uniforms := InputHandler.update_uniforms a.input_handler a.uniforms dt
  let vp := Camera.build_view_projection_matrix ops camera
  let uniforms := { uniforms with
    view_matrix := vp.1
    projection_matrix := vp.2
    camera_pos := camera.position
    time := uniforms.time + dt }
  { a with frame_count := t.1, fps_update_timer := t.2.1,
           current_fps := t.2.2, camera := camera, uniforms := uniforms }

/-- `RayMarchingApp::should_exit` (src/app.rs lines 114-127). -/
def RayMarchingApp.should_exit (e : WindowEvent) : Bool :=
  match e with
  | .closeRequested => true
  | .keyboardInput .pressed .escape => true
  | _ => false

/-- Outcome of `Renderer::render` as matched by the event loop
(`wgpu::SurfaceError`). -/
inductive RenderResult where
  | ok
  | lost
  | outOfMemory
  | otherErr
deriving DecidableEq

/-- One dispatch of the event-loop closure of `run` for a window event
(src/main.rs lines 28-52).  The returned `Bool` is true exactly when
`control_flow.exit()` is reached. -/
def run_loop_step (ops : MathOps) (grab_ok : Bool) (rr : RenderResult)
    (dt : ℚ) (a : RayMarchingApp) (e : WindowEvent) :
    RayMarchingApp × Bool :=
  let r := RayMarchingApp.input ops grab_ok a e
  if r.2 then (r.1, false)
  else if RayMarchingApp.should_exit e then (r.1, true)
  else match e with
    | .resized width height => (RayMarchingApp.resize r.1 width height, false)
    | .redrawRequested =>
        let a2 := RayMarchingApp.update ops dt r.1
        match rr with
        | .ok => (a2, false)
        | .lost => (RayMarchingApp.resize a2 a2.size.1 a2.size.2, false)
        | .outOfMemory => (a2, true)
        | .otherErr => (a2, false)
    | _ => (r.1, false)

/-! ## Helper lemmas -/

@[ext]
theorem Vec3.ext_components {a b : Vec3} (hx : a.x = b.x) (hy : a.y = b.y)
    (hz : a.z = b.z) : a = b := by
  cases a; cases b; cases hx; cases hy; cases hz; rfl

@[simp]
theorem Vec3.add_def (a b : Vec3) :
    a + b = ⟨a.x + b.x, a.y + b.y, a.z + b.z⟩ := rfl

@[simp]
theorem Vec3.sub_def (a b : Vec3) :
    a - b = ⟨a.x - b.x, a.y - b.y, a.z - b.z⟩ := rfl

@[simp]
theorem Vec3.smul_def (s : ℚ) (a : Vec3) :
    s • a = ⟨s * a.x, s * a.y, s * a.z⟩ := rfl

theorem rclamp_mem (x lo hi : ℚ) (h : lo ≤ hi) :
    lo ≤ rclamp x lo hi ∧ rclamp x lo hi ≤ hi := by
  unfold rclamp
  constructor
  · exact le_min (le_max_right x lo) h
  · exact min_le_right _ _

theorem rtrunc_of_nonneg (q : ℚ) (h : 0 ≤ q) : rtrunc q = ⌊q⌋ := by
  unfold rtrunc
  rw [if_neg (not_lt.mpr h)]

theorem u32_to_i32_eq_self (n : ℕ) (h : (n : ℤ) < 2147483648) :
    u32_to_i32 n = n := by
  unfold u32_to_i32
  omega

theorem i32_wrap_eq_self (z : ℤ) (h1 : -2147483648 ≤ z)
    (h2 : z < 2147483648) : i32_wrap z = z := by
  unfold i32_wrap
  omega

theorem update_mouse_look_captured (ops : MathOps) (i : InputHandler)
    (c : Camera) (pos : ℚ × ℚ) :
    ((InputHandler.update_mouse_look ops i c pos).1).mouse_captured
      = i.mouse_captured := by
  unfold InputHandler.update_mouse_look
  split <;> rfl

theorem applyMouseMoves_captured (ops : MathOps) (evs : List (ℚ × ℚ))
    (p : InputHandler × Camera) :
    ((applyMouseMoves ops p evs).1).mouse_captured
      = p.1.mouse_captured := by
  induction evs generalizing p with
  | nil => rfl
  | cons e t ih =>
      have step := update_mouse_look_captured ops p.1 p.2 e
      calc ((applyMouseMoves ops p (e :: t)).1).mouse_captured
          = ((applyMouseMoves ops
              (InputHandler.update_mouse_look ops p.1 p.2 e) t).1).mouse_captured := rfl
        _ = ((InputHandler.update_mouse_look ops p.1 p.2 e).1).mouse_captured :=
            ih _
        _ = p.1.mouse_captured := step

theorem update_mouse_look_pitch_mem (ops : MathOps) (i : InputHandler)
    (c : Camera) (pos : ℚ × ℚ) (h : i.mouse_captured = true) :
    -89 ≤ ((InputHandler.update_mouse_look ops i c pos).2).pitch ∧
    ((InputHandler.update_mouse_look ops i c pos).2).pitch ≤ 89 := by
  unfold InputHandler.update_mouse_look
  rw [if_pos h]
  exact rclamp_mem _ (-89) 89 (by norm_num)

theorem handle_mouse_scroll_frame (i : InputHandler)
    (evs : List MouseScrollDelta) (c : Camera) :
    let cmid := evs.foldl (InputHandler.handle_mouse_scroll i) c
    cmid.position = c.position ∧ cmid.target = c.target ∧
    cmid.up = c.up ∧ cmid.aspect = c.aspect ∧ cmid.fovy = c.fovy ∧
    cmid.znear = c.znear ∧ cmid.zfar = c.zfar ∧
    cmid.sensitivity = c.sensitivity ∧ cmid.yaw = c.yaw ∧
    cmid.pitch = c.pitch := by
  induction evs generalizing c with
  | nil => exact ⟨rfl, rfl, rfl, rfl, rfl, rfl, rfl, rfl, rfl, rfl⟩
  | cons e t ih => exact ih (InputHandler.handle_mouse_scroll i c e)

/-! ## Claim theorems -/

/-- C7: For every camera state, `reset()` sets `position` to `(0,0,-3)`,
`yaw` to `90`, `pitch` to `0` and `speed` to `2.0`, and leaves `aspect`,
`sensitivity`, `fovy`, `znear` and `zfar` unchanged. -/
theorem reset_restores_defaults (c : Camera) :
    c.reset.position = ⟨0, 0, -3⟩ ∧ c.reset.yaw = 90 ∧ c.reset.pitch = 0 ∧
    c.reset.speed = 2 ∧ c.reset.aspect = c.aspect ∧
    c.reset.sensitivity = c.sensitivity ∧ c.reset.fovy = c.fovy ∧
    c.reset.znear = c.znear ∧ c.reset.zfar = c.zfar :=
  ⟨rfl, rfl, rfl, rfl, rfl, rfl, rfl, rfl, rfl⟩

/-- C9: For every camera state (and every interpretation of the external
trigonometric routines), calling `update_target()` twice with unchanged
yaw/pitch/position yields the same `target` as calling it once. -/
theorem update_target_idempotent (ops : MathOps) (c : Camera) :
    (Camera.update_target ops (Camera.update_target ops c)).target =
      (Camera.update_target ops c).target := rfl

/-- C1: contrary to the claim, a key-press of Escape does NOT make the
event loop exit: `RayMarchingApp::input` returns `true` for every
keyboard event, so the dispatch in `run` never consults `should_exit`
for it; only a close request reaches the exit call (fatal render errors
aside). -/
theorem escape_event_never_exits (ops : MathOps) (grab_ok : Bool)
    (rr : RenderResult) (dt : ℚ) (a : RayMarchingApp) :
    (run_loop_step ops grab_ok rr dt a
        (WindowEvent.keyboardInput ElementState.pressed KeyCode.escape)).2
      = false ∧
    (run_loop_step ops grab_ok rr dt a WindowEvent.closeRequested).2
      = true :=
  ⟨rfl, rfl⟩

/-- C6: If the pointer-grab request fails when capture is toggled via the
Tab key or implicitly enabled via a primary-button click while not
captured, then `mouse_captured` ends `false` and the subsequent
`set_cursor_visible` call requests a visible cursor; `handle_event`
returns normally (the failure is absorbed). -/
theorem grab_failure_forces_uncaptured (i : InputHandler) (e : WindowEvent)
    (h : e = WindowEvent.keyboardInput ElementState.pressed KeyCode.tab ∨
         (e = WindowEvent.mouseInput ElementState.pressed MouseButton.left ∧
          i.mouse_captured = false)) :
    (InputHandler.handle_event false i e).handler.mouse_captured = false ∧
    (InputHandler.handle_event false i e).cursor_visible = some true := by
  rcases h with h | ⟨h, hcap⟩
  · subst h
    simp [InputHandler.handle_event]
  · subst h
    simp [InputHandler.handle_event, hcap]

theorem grab_failure_forces_uncaptured_witness :
    (InputHandler.handle_event false InputHandler.new
        (WindowEvent.keyboardInput ElementState.pressed
          KeyCode.tab)).handler.mouse_captured = false ∧
    (InputHandler.handle_event false InputHandler.new
        (WindowEvent.keyboardInput ElementState.pressed
          KeyCode.tab)).cursor_visible = some true :=
  grab_failure_forces_uncaptured InputHandler.new _ (Or.inl rfl)

/-- C4: For every sequence of scroll events, each scroll sets
`camera.speed` to the previous speed plus `scroll_amount * 0.5` clamped
to `[0.1, 20.0]` (so the resulting speed always lies in that interval),
and no other camera field is changed by scrolling. -/
theorem scroll_speed_invariant (i : InputHandler) (c : Camera)
    (evs : List MouseScrollDelta) (d : MouseScrollDelta)
    (h : c.speed = 2) :
    let cmid := evs.foldl (InputHandler.handle_mouse_scroll i) c
    let cfin := InputHandler.handle_mouse_scroll i cmid d
    cfin.speed = rclamp (cmid.speed + scroll_amount d * (1/2)) (1/10) 20 ∧
    1/10 ≤ cfin.speed ∧ cfin.speed ≤ 20 ∧
    cfin.position = c.position ∧ cfin.target = c.target ∧
    cfin.up = c.up ∧ cfin.aspect = c.aspect ∧ cfin.fovy = c.fovy ∧
    cfin.znear = c.znear ∧ cfin.zfar = c.zfar ∧
    cfin.sensitivity = c.sensitivity ∧ cfin.yaw = c.yaw ∧
    cfin.pitch = c.pitch := by
  have hb := rclamp_mem
    ((evs.foldl (InputHandler.handle_mouse_scroll i) c).speed +
      scroll_amount d * (1/2)) (1/10) 20 (by norm_num)
  have hf := handle_mouse_scroll_frame i evs c
  exact ⟨rfl, hb.1, hb.2, hf.1, hf.2.1, hf.2.2.1, hf.2.2.2.1,
    hf.2.2.2.2.1, hf.2.2.2.2.2.1, hf.2.2.2.2.2.2.1,
    hf.2.2.2.2.2.2.2.1, hf.2.2.2.2.2.2.2.2.1, hf.2.2.2.2.2.2.2.2.2⟩

theorem scroll_speed_invariant_witness :
    let cmid := List.foldl (InputHandler.handle_mouse_scroll InputHandler.new)
      (Camera.new 1) [MouseScrollDelta.pixelDelta 0 7]
    let cfin := InputHandler.handle_mouse_scroll InputHandler.new cmid
      (MouseScrollDelta.lineDelta 0 3)
    cfin.speed = rclamp (cmid.speed + scroll_amount
        (MouseScrollDelta.lineDelta 0 3) * (1/2)) (1/10) 20 ∧
    1/10 ≤ cfin.speed ∧ cfin.speed ≤ 20 ∧
    cfin.position = (Camera.new 1).position ∧
    cfin.target = (Camera.new 1).target ∧ cfin.up = (Camera.new 1).up ∧
    cfin.aspect = (Camera.new 1).aspect ∧
    cfin.fovy = (Camera.new 1).fovy ∧
    cfin.znear = (Camera.new 1).znear ∧
    cfin.zfar = (Camera.new 1).zfar ∧
    cfin.sensitivity = (Camera.new 1).sensitivity ∧
    cfin.yaw = (Camera.new 1).yaw ∧ cfin.pitch = (Camera.new 1).pitch :=
  scroll_speed_invariant InputHandler.new (Camera.new 1)
    [MouseScrollDelta.pixelDelta 0 7] (MouseScrollDelta.lineDelta 0 3) rfl

/-- C3: For every sequence of pointer-move events applied while captured,
with any delta magnitudes and any sensitivity scaling, the camera's pitch
after each update lies in `[-89, 89]`. -/
theorem pitch_clamped_after_each_move (ops : MathOps) (i : InputHandler)
    (c : Camera) (evs : List (ℚ × ℚ)) (ev : ℚ × ℚ)
    (h : i.mouse_captured = true) :
    -89 ≤ ((applyMouseMoves ops (i, c) (evs ++ [ev])).2).pitch ∧
    ((applyMouseMoves ops (i, c) (evs ++ [ev])).2).pitch ≤ 89 := by
  have hmid : ((applyMouseMoves ops (i, c) evs).1).mouse_captured = true := by
    rw [applyMouseMoves_captured]; exact h
  have hsplit : applyMouseMoves ops (i, c) (evs ++ [ev]) =
      InputHandler.update_mouse_look ops
        (applyMouseMoves ops (i, c) evs).1
        (applyMouseMoves ops (i, c) evs).2 ev := by
    simp [applyMouseMoves, List.foldl_append]
  rw [hsplit]
  exact update_mouse_look_pitch_mem ops _ _ ev hmid

theorem pitch_clamped_after_each_move_witness :
    -89 ≤ ((applyMouseMoves MathOps.triv
        ({ InputHandler.new with mouse_captured := true }, Camera.new 1)
        [(3, 5)]).2).pitch ∧
    ((applyMouseMoves MathOps.triv
        ({ InputHandler.new with mouse_captured := true }, Camera.new 1)
        [(3, 5)]).2).pitch ≤ 89 :=
  pitch_clamped_after_each_move MathOps.triv
    { InputHandler.new with mouse_captured := true } (Camera.new 1)
    [] (3, 5) rfl

/-- C5: With the forward key held (and the other translation keys and the
reset key not held), the per-tick displacement along the forward basis
vector is `camera.speed * dt` scaled by `0.1` when Ctrl is held, else by
`3` when Shift is held and Space is not held, else by `1`; in particular
Ctrl wins over Shift when both are held. -/
theorem horizontal_speed_modifier (ops : MathOps) (i : InputHandler)
    (c : Camera) (dt : ℚ)
    (hW : KeyCode.keyW ∈ i.keys_pressed)
    (hS : KeyCode.keyS ∉ i.keys_pressed)
    (hA : KeyCode.keyA ∉ i.keys_pressed)
    (hD : KeyCode.keyD ∉ i.keys_pressed)
    (hC : KeyCode.keyC ∉ i.keys_pressed)
    (hAU : KeyCode.arrowUp ∉ i.keys_pressed)
    (hAD : KeyCode.arrowDown ∉ i.keys_pressed)
    (hAL : KeyCode.arrowLeft ∉ i.keys_pressed)
    (hAR : KeyCode.arrowRight ∉ i.keys_pressed)
    (hR : KeyCode.keyR ∉ i.keys_pressed) :
    (InputHandler.update_camera ops i c dt).position =
      c.position +
      (c.speed * dt *
        (if KeyCode.controlLeft ∈ i.keys_pressed then 1/10
         else if KeyCode.shiftLeft ∈ i.keys_pressed ∧
                 KeyCode.space ∉ i.keys_pressed then 3
         else 1)) • ops.nf (c.target - c.position) +
      (if KeyCode.space ∈ i.keys_pressed then
        (if KeyCode.shiftLeft ∈ i.keys_pressed then c.speed * dt * (1/2)
         else c.speed * dt *
           (if KeyCode.controlLeft ∈ i.keys_pressed then 1/10 else 1))
       else 0) • c.up := by
  simp only [InputHandler.update_camera]
  simp only [hW, hS, hA, hD, hC, hAU, hAD, hAL, hAR, hR, if_true,
    if_false, ite_true, ite_false, not_false_iff]
  split_ifs <;>
    first
    | (ext <;> simp <;> ring1)
    | simp_all

theorem horizontal_speed_modifier_witness :
    (InputHandler.update_camera MathOps.triv
      { InputHandler.new with keys_pressed :=
          {KeyCode.keyW, KeyCode.controlLeft, KeyCode.shiftLeft} }
      (Camera.new 1) 1).position =
    (Camera.new 1).position +
    ((Camera.new 1).speed * 1 *
      (if KeyCode.controlLeft ∈
          ({ InputHandler.new with keys_pressed :=
            {KeyCode.keyW, KeyCode.controlLeft, KeyCode.shiftLeft} } :
            InputHandler).keys_pressed then 1/10
       else if KeyCode.shiftLeft ∈
          ({ InputHandler.new with keys_pressed :=
            {KeyCode.keyW, KeyCode.controlLeft, KeyCode.shiftLeft} } :
            InputHandler).keys_pressed ∧
          KeyCode.space ∉
          ({ InputHandler.new with keys_pressed :=
            {KeyCode.keyW, KeyCode.controlLeft, KeyCode.shiftLeft} } :
            InputHandler).keys_pressed then 3
       else 1)) • MathOps.triv.nf
        ((Camera.new 1).target - (Camera.new 1).position) +
    (if KeyCode.space ∈
        ({ InputHandler.new with keys_pressed :=
          {KeyCode.keyW, KeyCode.controlLeft, KeyCode.shiftLeft} } :
          InputHandler).keys_pressed then
      (if KeyCode.shiftLeft ∈
          ({ InputHandler.new with keys_pressed :=
            {KeyCode.keyW, KeyCode.controlLeft, KeyCode.shiftLeft} } :
            InputHandler).keys_pressed then (Camera.new 1).speed * 1 * (1/2)
       else (Camera.new 1).speed * 1 *
         (if KeyCode.controlLeft ∈
            ({ InputHandler.new with keys_pressed :=
              {KeyCode.keyW, KeyCode.controlLeft, KeyCode.shiftLeft} } :
              InputHandler).keys_pressed then 1/10 else 1))
     else 0) • (Camera.new 1).up :=
  horizontal_speed_modifier MathOps.triv
    { InputHandler.new with keys_pressed :=
        {KeyCode.keyW, KeyCode.controlLeft, KeyCode.shiftLeft} }
    (Camera.new 1) 1 (by decide) (by decide) (by decide) (by decide)
    (by decide) (by decide) (by decide) (by decide) (by decide) (by decide)

/-- C10: If Space and Shift are held in the same tick (with the
translation keys and the reset key not held), the displacement applied to
the camera that tick is `camera.speed * dt * 0.5` along the up vector,
regardless of whether Ctrl is also held. -/
theorem vertical_ascent_half_speed (ops : MathOps) (i : InputHandler)
    (c : Camera) (dt : ℚ)
    (hSp : KeyCode.space ∈ i.keys_pressed)
    (hSh : KeyCode.shiftLeft ∈ i.keys_pressed)
    (hW : KeyCode.keyW ∉ i.keys_pressed)
    (hS : KeyCode.keyS ∉ i.keys_pressed)
    (hA : KeyCode.keyA ∉ i.keys_pressed)
    (hD : KeyCode.keyD ∉ i.keys_pressed)
    (hC : KeyCode.keyC ∉ i.keys_pressed)
    (hAU : KeyCode.arrowUp ∉ i.keys_pressed)
    (hAD : KeyCode.arrowDown ∉ i.keys_pressed)
    (hAL : KeyCode.arrowLeft ∉ i.keys_pressed)
    (hAR : KeyCode.arrowRight ∉ i.keys_pressed)
    (hR : KeyCode.keyR ∉ i.keys_pressed) :
    (InputHandler.update_camera ops i c dt).position =
      c.position + (c.speed * dt * (1/2)) • c.up := by
  simp only [InputHandler.update_camera]
  simp only [hSp, hSh, hW, hS, hA, hD, hC, hAU, hAD, hAL, hAR, hR,
    if_true, if_false, ite_true, ite_false, not_false_iff, not_true,
    and_false, false_and]

theorem vertical_ascent_half_speed_witness :
    (InputHandler.update_camera MathOps.triv
      { InputHandler.new with keys_pressed :=
          {KeyCode.space, KeyCode.shiftLeft, KeyCode.controlLeft} }
      (Camera.new 1) 1).position =
    (Camera.new 1).position +
      ((Camera.new 1).speed * 1 * (1/2)) • (Camera.new 1).up :=
  vertical_ascent_half_speed MathOps.triv
    { InputHandler.new with keys_pressed :=
        {KeyCode.space, KeyCode.shiftLeft, KeyCode.controlLeft} }
    (Camera.new 1) 1 (by decide) (by decide) (by decide) (by decide)
    (by decide) (by decide) (by decide) (by decide) (by decide)
    (by decide) (by decide) (by decide)

/-- C2 (amended): for `dt > 0` with parameters inside their documented
ranges and no `u32` overflow in the iteration increment, one tick of
`update_uniforms` with only the power-down key (Q) held moves
`fractal_power` by `-dt*2` clamped to `[1,20]`, with only E held by
`+dt*2` clamped to `[1,20]`, and with only Z (resp. X) held moves
`fractal_iterations` by `⌊dt*20⌋` down (resp. up) clamped to `[8,256]`. -/
theorem update_uniforms_nudge_clamped (u : Uniforms) (dt : ℚ)
    (hdt : 0 < dt)
    (hp1 : 1 ≤ u.fractal_power) (hp2 : u.fractal_power ≤ 20)
    (hi1 : 8 ≤ u.fractal_iterations) (hi2 : u.fractal_iterations ≤ 256)
    (hov : u.fractal_iterations + f32_to_u32 (dt * 20) < 4294967296) :
    (InputHandler.update_uniforms
        { InputHandler.new with keys_pressed := {KeyCode.keyQ} } u
        dt).fractal_power = rclamp (u.fractal_power - dt * 2) 1 20 ∧
    (InputHandler.update_uniforms
        { InputHandler.new with keys_pressed := {KeyCode.keyE} } u
        dt).fractal_power = rclamp (u.fractal_power + dt * 2) 1 20 ∧
    ((InputHandler.update_uniforms
        { InputHandler.new with keys_pressed := {KeyCode.keyZ} } u
        dt).fractal_iterations : ℤ)
      = min (max ((u.fractal_iterations : ℤ) - ⌊dt * 20⌋) 8) 256 ∧
    ((InputHandler.update_uniforms
        { InputHandler.new with keys_pressed := {KeyCode.keyX} } u
        dt).fractal_iterations : ℤ)
      = min (max ((u.fractal_iterations : ℤ) + ⌊dt * 20⌋) 8) 256 := by
  have hq20 : (0:ℚ) ≤ dt * 20 := mul_nonneg hdt.le (by norm_num)
  have htr : rtrunc (dt * 20) = ⌊dt * 20⌋ := rtrunc_of_nonneg _ hq20
  have hd0 : (0:ℤ) ≤ ⌊dt * 20⌋ := Int.floor_nonneg.mpr hq20
  refine ⟨?_, ?_, ?_, ?_⟩
  · have hq : (InputHandler.update_uniforms
        { InputHandler.new with keys_pressed := {KeyCode.keyQ} } u
        dt).fractal_power = max (u.fractal_power - dt * 2) 1 := by
      simp [InputHandler.update_uniforms]
    rw [hq]
    unfold rclamp
    exact (min_eq_left (max_le (by linarith) (by norm_num))).symm
  · have he : (InputHandler.update_uniforms
        { InputHandler.new with keys_pressed := {KeyCode.keyE} } u
        dt).fractal_power = min (u.fractal_power + dt * 2) 20 := by
      simp [InputHandler.update_uniforms]
    rw [he]
    unfold rclamp
    rw [max_eq_left (by linarith : (1:ℚ) ≤ u.fractal_power + dt * 2)]
  · have hz : (InputHandler.update_uniforms
        { InputHandler.new with keys_pressed := {KeyCode.keyZ} } u
        dt).fractal_iterations
        = i32_to_u32 (max (i32_wrap
            (u32_to_i32 u.fractal_iterations - f32_to_i32 (dt * 20))) 8) := by
      simp [InputHandler.update_uniforms]
    rw [hz]
    clear hz hov
    unfold i32_to_u32 i32_wrap u32_to_i32 f32_to_i32
    rw [htr]
    clear htr hq20 hdt hp1 hp2
    omega
  · have hx : (InputHandler.update_uniforms
        { InputHandler.new with keys_pressed := {KeyCode.keyX} } u
        dt).fractal_iterations
        = min ((u.fractal_iterations + f32_to_u32 (dt * 20)) % 4294967296)
            256 := by
      simp [InputHandler.update_uniforms]
    rw [hx]
    clear hx
    unfold f32_to_u32 at hov ⊢
    rw [htr] at hov ⊢
    clear htr hq20 hdt hp1 hp2
    omega

theorem update_uniforms_nudge_clamped_witness :
    (InputHandler.update_uniforms
        { InputHandler.new with keys_pressed := {KeyCode.keyQ} }
        Uniforms.new 1).fractal_power
      = rclamp (Uniforms.new.fractal_power - 1 * 2) 1 20 ∧
    (InputHandler.update_uniforms
        { InputHandler.new with keys_pressed := {KeyCode.keyE} }
        Uniforms.new 1).fractal_power
      = rclamp (Uniforms.new.fractal_power + 1 * 2) 1 20 ∧
    ((InputHandler.update_uniforms
        { InputHandler.new with keys_pressed := {KeyCode.keyZ} }
        Uniforms.new 1).fractal_iterations : ℤ)
      = min (max ((Uniforms.new.fractal_iterations : ℤ) - ⌊(1:ℚ) * 20⌋) 8)
          256 ∧
    ((InputHandler.update_uniforms
        { InputHandler.new with keys_pressed := {KeyCode.keyX} }
        Uniforms.new 1).fractal_iterations : ℤ)
      = min (max ((Uniforms.new.fractal_iterations : ℤ) + ⌊(1:ℚ) * 20⌋) 8)
          256 :=
  update_uniforms_nudge_clamped Uniforms.new 1 (by norm_num)
    (by norm_num [Uniforms.new]) (by norm_num [Uniforms.new])
    (by norm_num [Uniforms.new]) (by norm_num [Uniforms.new])
    (by
      have h20 : rtrunc (20:ℚ) = 20 := by
        unfold rtrunc
        rw [if_neg (by norm_num)]
        norm_num
      simp [Uniforms.new, f32_to_u32, h20])

/-- C2 (counterexample to the claim as stated): with the iteration-up key
held, `fractal_iterations = 8` and `dt = 2147483648`, the `u32` addition
wraps and the resulting iteration count is `7`, outside the claimed clamp
interval `[8, 256]`. -/
theorem iteration_up_wraps_cex :
    (InputHandler.update_uniforms
        { InputHandler.new with keys_pressed := {KeyCode.keyX} }
        { Uniforms.new with fractal_iterations := 8 }
        2147483648).fractal_iterations = 7 ∧
    ¬ (8 ≤ (InputHandler.update_uniforms
        { InputHandler.new with keys_pressed := {KeyCode.keyX} }
        { Uniforms.new with fractal_iterations := 8 }
        2147483648).fractal_iterations) := by
  have htr : rtrunc ((2147483648:ℚ) * 20) = 42949672960 := by
    rw [show (2147483648:ℚ) * 20 = 42949672960 by norm_num]
    unfold rtrunc
    rw [if_neg (by norm_num)]
    norm_num
  have h : (InputHandler.update_uniforms
      { InputHandler.new with keys_pressed := {KeyCode.keyX} }
      { Uniforms.new with fractal_iterations := 8 }
      2147483648).fractal_iterations = 7 := by
    simp [InputHandler.update_uniforms, f32_to_u32, htr]
  exact ⟨h, by rw [h]; norm_num⟩

theorem fps_tick_iterate (k : ℕ) (hk : k ≤ 59) :
    (fps_tick (1/60))^[k] (0, 0, 0) = (k, (k : ℚ)/60, 0) := by
  induction k with
  | zero => simp
  | succ n ih =>
      have hn : n ≤ 59 := Nat.le_of_succ_le hk
      rw [Function.iterate_succ_apply', ih hn]
      unfold fps_tick
      have h1 : (n : ℚ)/60 + 1/60 = ((n + 1 : ℕ) : ℚ)/60 := by
        push_cast
        ring
      have h2 : ¬ (1 ≤ ((n + 1 : ℕ) : ℚ)/60) := by
        rw [not_le, div_lt_one (by norm_num : (0:ℚ) < 60)]
        exact_mod_cast (by omega : n + 1 < 60)
      simp only [h1]
      rw [if_neg h2]

/-- C8: per-tick timing of `RayMarchingApp::update` increments the frame
counter and accumulates `dt`; when the timer reaches `≥ 1` second it sets
`fps = frameCount/timer` and resets both.  Sixty ticks at `dt = 1/60`
from zeroed counters yield `fps = 60` exactly (in the exact rational
model), with counter and timer back at `0`. -/
theorem fps_window_sixty_ticks (ops : MathOps) (a : RayMarchingApp)
    (h1 : a.frame_count = 0) (h2 : a.fps_update_timer = 0)
    (h3 : a.current_fps = 0) :
    ((RayMarchingApp.update ops (1/60))^[60] a).frame_count = 0 ∧
    ((RayMarchingApp.update ops (1/60))^[60] a).fps_update_timer = 0 ∧
    ((RayMarchingApp.update ops (1/60))^[60] a).current_fps = 60 := by
  have comm : ∀ (n : ℕ) (b : RayMarchingApp),
      (((RayMarchingApp.update ops (1/60))^[n] b).frame_count,
       ((RayMarchingApp.update ops (1/60))^[n] b).fps_update_timer,
       ((RayMarchingApp.update ops (1/60))^[n] b).current_fps) =
      (fps_tick (1/60))^[n]
        (b.frame_count, b.fps_update_timer, b.current_fps) := by
    intro n
    induction n with
    | zero => intro b; rfl
    | succ m ih =>
        intro b
        rw [Function.iterate_succ_apply, Function.iterate_succ_apply,
          ih (RayMarchingApp.update ops (1/60) b)]
        rfl
  have h60 : (fps_tick (1/60))^[60] ((0 : ℕ), (0 : ℚ), (0 : ℚ))
      = (0, 0, 60) := by
    have h59 := fps_tick_iterate 59 (by norm_num)
    rw [show (60 : ℕ) = 59 + 1 from rfl, Function.iterate_succ_apply', h59]
    unfold fps_tick
    norm_num
  have key := comm 60 a
  rw [h1, h2, h3, h60] at key
  rw [Prod.ext_iff, Prod.ext_iff] at key
  exact ⟨key.1, key.2.1, key.2.2⟩

theorem fps_window_sixty_ticks_witness :
    ((RayMarchingApp.update MathOps.triv (1/60))^[60]
        { uniforms := Uniforms.new, camera := Camera.new 1,
          input_handler := InputHandler.new, frame_count := 0,
          fps_update_timer := 0, current_fps := 0,
          size := (1024, 768) }).frame_count = 0 ∧
    ((RayMarchingApp.update MathOps.triv (1/60))^[60]
        { uniforms := Uniforms.new, camera := Camera.new 1,
          input_handler := InputHandler.new, frame_count := 0,
          fps_update_timer := 0, current_fps := 0,
          size := (1024, 768) }).fps_update_timer = 0 ∧
    ((RayMarchingApp.update MathOps.triv (1/60))^[60]
        { uniforms := Uniforms.new, camera := Camera.new 1,
          input_handler := InputHandler.new, frame_count := 0,
          fps_update_timer := 0, current_fps := 0,
          size := (1024, 768) }).current_fps = 60 :=
  fps_window_sixty_ticks MathOps.triv
    { uniforms := Uniforms.new, camera := Camera.new 1,
      input_handler := InputHandler.new, frame_count := 0,
      fps_update_timer := 0, current_fps := 0, size := (1024, 768) }
    rfl rfl rfl

end RayMarcher
